import Mathlib

/-!
# Verification of the Bidwise notification/messaging subsystem

Shallow embedding of `notification_service/notifications` (models.py,
views.py, consumers.py, services.py, signals.py) and proofs about the
claims of the specification.

Conventions: Django rows become Lean structures; querysets become lists;
`filter(...).update(...)` becomes a guarded `List.map`; `get_or_create`
becomes a membership-guarded append; UUID primary keys are embedded as
`Nat` identifiers and user ids as `String`; timestamps are abstract `Nat`
instants supplied by the caller (`timezone.now()`).  Side effects that do
not touch the relational state modelled here (channel-layer broadcast,
cache invalidation, e-mail/SMS dispatch, logging) are outside the
embedding; every state mutation of the modelled tables is embedded.
-/

/-- models.NotificationChannel.CHANNEL_CHOICES. -/
inductive ChannelName
  | web
  | email
  | sms
  | push
deriving DecidableEq, Repr

/-- models.NotificationChannel: a delivery channel row with its
`is_active` flag. -/
structure NotificationChannel where
  name : ChannelName
  is_active : Bool
deriving DecidableEq, Repr

/-- models.NotificationType: a notification category with its declared
`default_channels` (a many-to-many list of channel rows). -/
structure NotificationType where
  id : Nat
  name : String
  default_channels : List NotificationChannel
deriving DecidableEq, Repr

/-- models.UserNotificationPreference: per (user, type) override row.
The table has `unique_together = ['user_id', 'notification_type']`. -/
structure UserNotificationPreference where
  user_id : String
  notification_type_id : Nat
  channels : List NotificationChannel
  is_enabled : Bool
deriving DecidableEq, Repr

/-- services.NotificationService.send_notification, channel-resolution
part (services.py lines 53-96).  The code queries
`UserNotificationPreference.objects.filter(user_id=recipient,
notification_type=type, is_enabled=True)`; if that queryset is
non-empty it extends `channels_to_use` with each row's
`channels.filter(is_active=True)`, otherwise it falls back to
`notification_type.default_channels.filter(is_active=True)`.  The cache
lookups around both branches store and return exactly these lists, so
they are transparent to the result. -/
def send_notification_channels (prefs : List UserNotificationPreference)
    (recipient_id : String) (ntype : NotificationType) : List NotificationChannel :=
  let preferences := prefs.filter fun p =>
    p.user_id == recipient_id && p.notification_type_id == ntype.id && p.is_enabled
  if preferences.isEmpty then
    ntype.default_channels.filter fun c => c.is_active
  else
    (preferences.map fun p => p.channels.filter fun c => c.is_active).flatten

/-- models.Notification.STATUS_CHOICES. -/
inductive NStatus
  | pending
  | sent
  | delivered
  | read
  | failed
deriving DecidableEq, Repr

/-- models.Notification: the fields touched by the status-changing
operations. -/
structure Notification where
  recipient_id : String
  status : NStatus
  sent_at : Option Nat
  delivered_at : Option Nat
  read_at : Option Nat
deriving DecidableEq, Repr

/-- models.Notification.mark_as_read (models.py lines 129-134): guarded
on `status != 'read'`. -/
def mark_as_read (n : Notification) (now : Nat) : Notification :=
  if n.status ≠ NStatus.read then
    { n with status := NStatus.read, read_at := some now }
  else n

/-- models.Notification.mark_as_sent (models.py lines 136-140):
unconditional assignment of `status = 'sent'`. -/
def mark_as_sent (n : Notification) (now : Nat) : Notification :=
  { n with status := NStatus.sent, sent_at := some now }

/-- models.Notification.mark_as_delivered (models.py lines 142-146):
unconditional assignment of `status = 'delivered'`. -/
def mark_as_delivered (n : Notification) (now : Nat) : Notification :=
  { n with status := NStatus.delivered, delivered_at := some now }

/-- Per-row effect of MarkAllNotificationsReadView.post (views.py lines
303-309) and NotificationConsumer.mark_all_notifications_read
(consumers.py lines 489-506): the queryset
`filter(recipient_id=user_id, status__in=['pending','sent','delivered'])
.update(status='read', read_at=now)` updates exactly the rows matching
the filter and leaves every other row untouched. -/
def mark_all_read_row (user_id : String) (now : Nat) (n : Notification) : Notification :=
  if n.recipient_id == user_id &&
      (n.status == NStatus.pending || n.status == NStatus.sent ||
        n.status == NStatus.delivered) then
    { n with status := NStatus.read, read_at := some now }
  else n

/-- The whole-table effect of the mark-all-notifications-read operation. -/
def mark_all_notifications_read (ns : List Notification) (user_id : String)
    (now : Nat) : List Notification :=
  ns.map (mark_all_read_row user_id now)

/-- models.Conversation: the fields the messaging operations consult.
`participants` is the JSON list of user ids. -/
structure Conversation where
  id : Nat
  participants : List String
  is_active : Bool
  last_message_at : Option Nat
deriving DecidableEq, Repr

/-- models.Message. -/
structure Message where
  id : Nat
  conversation_id : Nat
  sender_id : String
  content : String
  is_edited : Bool
  is_deleted : Bool
  created_at : Nat
  updated_at : Nat
deriving DecidableEq, Repr

/-- models.MessageReadStatus: one row per (message, user), with
`unique_together = ['message', 'user_id']`. -/
structure MessageReadStatus where
  message_id : Nat
  user_id : String
deriving DecidableEq, Repr

/-- models.ConversationMember, with
`unique_together = ['conversation', 'user_id']`. -/
structure ConversationMember where
  conversation_id : Nat
  user_id : String
  unread_count : Nat
  last_seen_at : Option Nat
deriving DecidableEq, Repr

/-- The relational state of the messaging tables. -/
structure DB where
  conversations : List Conversation
  messages : List Message
  members : List ConversationMember
  read_statuses : List MessageReadStatus
deriving DecidableEq, Repr

/-- The error outcomes the messaging endpoints produce:
`accessDenied` is DRF `PermissionDenied` (403) and the consumer's
`'Access denied to conversation'` error frame; `notFound` is an HTTP
404 response; `validationError` is a DRF 400 validation response;
`missingFields` is the consumer's `'Missing required fields'` frame. -/
inductive ApiErr
  | accessDenied
  | notFound
  | validationError
  | missingFields
deriving DecidableEq, Repr

/-- Outcome of a state-changing endpoint: the resulting table state,
the error reported to the caller (if any), and the persisted message
returned on success (if the operation returns one). -/
structure OpResult where
  db : DB
  err : Option ApiErr
  msg : Option Message
deriving DecidableEq, Repr

/-- Python's `str.strip()`: removes leading and trailing whitespace.
Embedded structurally over the character list (the library's
`String.trim` is defined by well-founded recursion and does not reduce
definitionally). -/
def py_strip (s : String) : String :=
  String.mk (((s.data.dropWhile Char.isWhitespace).reverse.dropWhile
    Char.isWhitespace).reverse)

/-- signals.message_created (signals.py lines 57-135), the `post_save`
receiver body for Message, restricted to its relational writes: it sets
the conversation's `last_message_at` to the new message's `created_at`
and runs `ConversationMember.objects.filter(conversation=...)
.exclude(user_id=sender).update(unread_count=F('unread_count') + 1)`.
Its remaining side effects (group broadcast, cache invalidation, and
`create_message_notification`, which writes only the notification
tables) do not touch the tables in `DB`. -/
def message_created_signal (db : DB) (msg : Message) : DB :=
  { db with
    conversations := db.conversations.map fun c =>
      if c.id == msg.conversation_id then
        { c with last_message_at := some msg.created_at }
      else c,
    members := db.members.map fun m =>
      if m.conversation_id == msg.conversation_id && m.user_id != msg.sender_id then
        { m with unread_count := m.unread_count + 1 }
      else m }

/-- Modelled from the spec: the registration of `message_created` as a
`post_save` receiver for Message happens in Django app configuration
that is not under `src/`; spec section 9 records that the source uses
signal-driven side effects ("persistence triggers broadcast and
notification creation implicitly on save").  Accordingly, saving a
Message row inserts it and synchronously runs the receiver body. -/
def save_message (db : DB) (msg : Message) : DB :=
  message_created_signal { db with messages := db.messages ++ [msg] } msg

/-- SendMessageView.perform_create (views.py lines 431-461) together
with MessageCreateSerializer.validate_content (serializers.py lines
188-194).  DRF validates first (`is_valid(raise_exception=True)`):
empty-after-strip or over-5000-character content is rejected with a 400
before anything else.  The view then requires a conversation with the
given id whose `participants` list contains the requester, else raises
`PermissionDenied("Access denied to conversation")`; on success it
saves the message (firing the `post_save` receiver), re-assigns the
conversation's `last_message_at`, and re-runs the same
`unread_count=F('unread_count') + 1` update over the other members. -/
def send_message_rest (db : DB) (conversation_id : Nat) (user_id : String)
    (content : String) (msg_id now : Nat) : OpResult :=
  if py_strip content = "" then ⟨db, some ApiErr.validationError, none⟩
  else if content.length > 5000 then ⟨db, some ApiErr.validationError, none⟩
  else
    match db.conversations.find? (fun c =>
        c.id == conversation_id && c.participants.contains user_id) with
    | none => ⟨db, some ApiErr.accessDenied, none⟩
    | some _ =>
      let msg : Message :=
        { id := msg_id, conversation_id := conversation_id, sender_id := user_id,
          content := py_strip content, is_edited := false, is_deleted := false,
          created_at := now, updated_at := now }
      let db1 := save_message db msg
      let db2 := { db1 with
        conversations := db1.conversations.map fun c =>
          if c.id == conversation_id then
            { c with last_message_at := some msg.created_at }
          else c,
        members := db1.members.map fun m =>
          if m.conversation_id == conversation_id && m.user_id != user_id then
            { m with unread_count := m.unread_count + 1 }
          else m }
      ⟨db2, none, some msg⟩

/-- MessagingConsumer.verify_conversation_access (consumers.py lines
248-259): a conversation with the given id exists, is active, and has a
ConversationMember row for the user. -/
def verify_conversation_access (db : DB) (conversation_id : Nat)
    (user_id : String) : Bool :=
  db.conversations.any fun c =>
    c.id == conversation_id && c.is_active &&
      db.members.any fun m => m.conversation_id == c.id && m.user_id == user_id

/-- MessagingConsumer.create_message (consumers.py lines 261-290):
requires the conversation row to exist; creates the Message (firing the
`post_save` receiver), creates a MessageReadStatus for the sender, and
increments `unread_count` for every other member.  Returns `none` when
the conversation does not exist (the handler then does nothing). -/
def create_message (db : DB) (conversation_id : Nat) (user_id : String)
    (content : String) (msg_id now : Nat) : Option (DB × Message) :=
  match db.conversations.find? (fun c => c.id == conversation_id) with
  | none => none
  | some _ =>
    let msg : Message :=
      { id := msg_id, conversation_id := conversation_id, sender_id := user_id,
        content := content, is_edited := false, is_deleted := false,
        created_at := now, updated_at := now }
    let db1 := save_message db msg
    let db2 : DB := { db1 with
      read_statuses := db1.read_statuses ++ [{ message_id := msg.id, user_id := user_id }] }
    let db3 : DB := { db2 with
      members := db2.members.map fun m =>
        if m.conversation_id == conversation_id && m.user_id != user_id then
          { m with unread_count := m.unread_count + 1 }
        else m }
    some (db3, msg)

/-- MessagingConsumer.handle_send_message (consumers.py lines 116-140):
rejects a blank content (`'Missing required fields'`) first, then
checks `verify_conversation_access` (`'Access denied to conversation'`)
before `create_message` runs; a `None` from `create_message` yields no
frame and no state change. -/
def handle_send_message (db : DB) (conversation_id : Nat) (user_id : String)
    (content : String) (msg_id now : Nat) : OpResult :=
  if py_strip content = "" then ⟨db, some ApiErr.missingFields, none⟩
  else if verify_conversation_access db conversation_id user_id then
    match create_message db conversation_id user_id (py_strip content) msg_id now with
    | some (db1, m) => ⟨db1, none, some m⟩
    | none => ⟨db, none, none⟩
  else ⟨db, some ApiErr.accessDenied, none⟩

/-- The test `MessageReadStatus.objects.filter(message=m,
user_id=u).exists()`, which the mark-read operations are measured by. -/
def has_read_status (db : DB) (message_id : Nat) (user_id : String) : Bool :=
  db.read_statuses.any fun r => r.message_id == message_id && r.user_id == user_id

/-- The call `MessageReadStatus.objects.get_or_create(message=m, user_id=u)`
(views.py lines 517-521): creates the row only when no row for the
(message, user) pair exists; an existing row is returned unchanged and
no error is raised. -/
def get_or_create_read_status (db : DB) (message_id : Nat) (user_id : String) : DB :=
  if has_read_status db message_id user_id then db
  else { db with read_statuses := db.read_statuses ++ [⟨message_id, user_id⟩] }

/-- The update `ConversationMember.objects.filter(conversation=c, user_id=u)
.first()` followed by `unread_count = 0; last_seen_at = now; save(...)`
(views.py lines 523-531): updates the first matching row, if any
(`unique_together` guarantees at most one row matches). -/
def set_member_read (ms : List ConversationMember) (conversation_id : Nat)
    (user_id : String) (now : Nat) : List ConversationMember :=
  match ms with
  | [] => []
  | m :: rest =>
    if m.conversation_id == conversation_id && m.user_id == user_id then
      { m with unread_count := 0, last_seen_at := some now } :: rest
    else m :: set_member_read rest conversation_id user_id now

/-- The success branch of MarkConversationReadView.post (views.py
lines 509-531): computes the queryset of non-deleted messages of the
conversation not sent by the user and not already read by the user
(evaluated once, against the incoming state, as the single SQL query
is); iterates `get_or_create` of a MessageReadStatus over it; then
resets the member row's `unread_count` to 0 and stamps
`last_seen_at`. -/
def mark_conversation_read_body (db : DB) (conversation_id : Nat) (user_id : String)
    (now : Nat) : DB :=
  let unread := db.messages.filter fun m =>
    m.conversation_id == conversation_id && !m.is_deleted &&
      !(m.sender_id == user_id || has_read_status db m.id user_id)
  let db1 := unread.foldl (fun d m => get_or_create_read_status d m.id user_id) db
  { db1 with
    members := set_member_read db1.members conversation_id user_id now }

/-- MarkConversationReadView.post (views.py lines 500-539): requires a
conversation with the given id whose participants contain the user
(else 404 `'Conversation not found'`); on success runs
`mark_conversation_read_body` and reports no error. -/
def mark_conversation_read (db : DB) (conversation_id : Nat) (user_id : String)
    (now : Nat) : DB × Option ApiErr :=
  match db.conversations.find? (fun c =>
      c.id == conversation_id && c.participants.contains user_id) with
  | none => (db, some ApiErr.notFound)
  | some _ => (mark_conversation_read_body db conversation_id user_id now, none)

/-- EditMessageView.patch (views.py lines 132-152):
`Message.objects.get(id=message_id, sender_id=request.user.user_id,
is_deleted=False)` — a message not matching all three filters yields
`DoesNotExist`, answered with 404 `'Message not found'`.  Then an
empty-after-strip content is a 400; otherwise content is replaced,
`is_edited` set, and `updated_at` refreshed. -/
def edit_message (db : DB) (message_id : Nat) (user_id : String)
    (new_content : String) (now : Nat) : DB × Option ApiErr :=
  match db.messages.find? (fun m =>
      m.id == message_id && m.sender_id == user_id && !m.is_deleted) with
  | none => (db, some ApiErr.notFound)
  | some _ =>
    if py_strip new_content = "" then (db, some ApiErr.validationError)
    else
      ({ db with messages := db.messages.map fun m =>
          if m.id == message_id && m.sender_id == user_id && !m.is_deleted then
            { m with content := py_strip new_content, is_edited := true, updated_at := now }
          else m }, none)

/-- DeleteMessageView.delete (views.py lines 159-174): the same
sender-filtered lookup (404 `'Message not found'` when it fails), then
a soft delete setting `is_deleted` and refreshing `updated_at`. -/
def delete_message (db : DB) (message_id : Nat) (user_id : String)
    (now : Nat) : DB × Option ApiErr :=
  match db.messages.find? (fun m =>
      m.id == message_id && m.sender_id == user_id && !m.is_deleted) with
  | none => (db, some ApiErr.notFound)
  | some _ =>
    ({ db with messages := db.messages.map fun m =>
        if m.id == message_id && m.sender_id == user_id && !m.is_deleted then
          { m with is_deleted := true, updated_at := now }
        else m }, none)

/-- The payload `handle_typing` publishes to the conversation group. -/
structure TypingEvent where
  user_id : String
  conversation_id : Nat
  is_typing : Bool
deriving DecidableEq, Repr

/-- A live connection subscribed to the conversation's group. -/
structure Subscriber where
  channel_name : Nat
  user_id : String
deriving DecidableEq, Repr

/-- MessagingConsumer.handle_typing (consumers.py lines 188-200): if
`conversation_id` is absent the frame is dropped; otherwise a
`typing_indicator` event is published to the conversation group.  No
database access and no membership check occurs. -/
def handle_typing (conversation_id : Option Nat) (sender_id : String)
    (is_typing : Bool) : Option TypingEvent :=
  match conversation_id with
  | none => none
  | some cid => some ⟨sender_id, cid, is_typing⟩

/-- MessagingConsumer.typing_indicator (consumers.py lines 219-228):
each group subscriber's consumer forwards the event to its socket only
when the event's `user_id` differs from the subscriber's own user. -/
def typing_indicator (subscriber_user_id : String) (ev : TypingEvent) :
    Option TypingEvent :=
  if ev.user_id ≠ subscriber_user_id then some ev else none

/-- End-to-end relay of one typing frame: the subscribers of the
conversation group that actually receive the event. -/
def relay_typing (subs : List Subscriber) (conversation_id : Option Nat)
    (sender_id : String) (is_typing : Bool) : List Subscriber :=
  match handle_typing conversation_id sender_id is_typing with
  | none => []
  | some ev => subs.filter fun s => (typing_indicator s.user_id ev).isSome

/-! ## Concrete fixtures used by witnesses and counterexamples -/

/-- A two-member active conversation between users "A" and "B". -/
def sampleConv : Conversation :=
  { id := 1, participants := ["A", "B"], is_active := true, last_message_at := none }

/-- State with conversation 1, both member rows at zero unread, no
messages, no read statuses. -/
def sampleDB : DB :=
  { conversations := [sampleConv],
    messages := [],
    members := [{ conversation_id := 1, user_id := "A", unread_count := 0, last_seen_at := none },
                { conversation_id := 1, user_id := "B", unread_count := 0, last_seen_at := none }],
    read_statuses := [] }

/-- State with three messages in conversation 1: message 10 ("A",
live), message 11 ("A", soft-deleted), message 12 ("B", live, already
read by "B"). -/
def sampleDBMsgs : DB :=
  { sampleDB with
    messages := [
      { id := 10, conversation_id := 1, sender_id := "A", content := "hi",
        is_edited := false, is_deleted := false, created_at := 5, updated_at := 5 },
      { id := 11, conversation_id := 1, sender_id := "A", content := "yo",
        is_edited := false, is_deleted := true, created_at := 6, updated_at := 6 },
      { id := 12, conversation_id := 1, sender_id := "B", content := "re",
        is_edited := false, is_deleted := false, created_at := 7, updated_at := 7 }],
    members := [{ conversation_id := 1, user_id := "A", unread_count := 1, last_seen_at := none },
                { conversation_id := 1, user_id := "B", unread_count := 2, last_seen_at := none }],
    read_statuses := [{ message_id := 12, user_id := "B" }] }

/-- An active web channel row. -/
def sampleWeb : NotificationChannel := { name := ChannelName.web, is_active := true }

/-- An active email channel row. -/
def sampleEmail : NotificationChannel := { name := ChannelName.email, is_active := true }

/-- The `new_message` notification type with default channels web and email. -/
def sampleNewMessageType : NotificationType :=
  { id := 7, name := "new_message", default_channels := [sampleWeb, sampleEmail] }

/-- A preference row for user "u7" on type 7 with `is_enabled = False`
and email configured. -/
def sampleDisabledPref : UserNotificationPreference :=
  { user_id := "u7", notification_type_id := 7, channels := [sampleEmail], is_enabled := false }

/-- A notification already in status `read`. -/
def sampleReadNotification : Notification :=
  { recipient_id := "u", status := NStatus.read,
    sent_at := none, delivered_at := none, read_at := some 3 }

/-! ## C1: unread_count increment per send -/

/-- C1: the claim states that one successful send increments every
other member's `unread_count` by exactly 1 and leaves the sender's
unchanged.  Evaluating the code at a two-member conversation with both
counters 0: after "A" sends one message, "B"'s counter is 2, not 1 —
the `post_save` receiver adds 1 and the view/consumer adds 1 again, on
both the REST and the WebSocket path.  The sender's counter does stay
0. -/
theorem c1_unread_double_increment :
    (send_message_rest sampleDB 1 "A" "hi" 10 5).db.members.map
        (fun m => (m.user_id, m.unread_count)) = [("A", 0), ("B", 2)] ∧
    (handle_send_message sampleDB 1 "A" "hi" 10 5).db.members.map
        (fun m => (m.user_id, m.unread_count)) = [("A", 0), ("B", 2)] := by
  exact ⟨rfl, rfl⟩

/-! ## C8 and C9: notification status operations -/

/-- C8 counterexample: the claim states no status-changing operation
ever moves a notification backwards along the chain pending → sent →
delivered → read.  But `mark_as_sent` applied to a notification whose
status is already `read` moves it back to `sent`. -/
theorem c8_read_to_sent_counterexample :
    sampleReadNotification.status = NStatus.read ∧
    (mark_as_sent sampleReadNotification 9).status = NStatus.sent := by
  exact ⟨rfl, rfl⟩

/-- C8 (amended): `mark_as_read` and the mark-all bulk update respect
the state machine — `mark_as_read` is a no-op on an already-read
notification and otherwise moves the status to `read`, and the bulk
per-row update leaves a `read` or `failed` row unchanged — but
`mark_as_sent` and `mark_as_delivered` assign their status
unconditionally, whatever the current status, so the chain is not
enforced by them. -/
theorem c8_status_ops (n : Notification) (uid : String) (now : Nat) :
    (mark_as_sent n now).status = NStatus.sent ∧
    (mark_as_delivered n now).status = NStatus.delivered ∧
    (n.status = NStatus.read → mark_as_read n now = n) ∧
    (n.status ≠ NStatus.read → (mark_as_read n now).status = NStatus.read ∧
      (mark_as_read n now).read_at = some now) ∧
    ((n.status = NStatus.read ∨ n.status = NStatus.failed) →
      mark_all_read_row uid now n = n) := by
  refine ⟨rfl, rfl, ?_, ?_, ?_⟩
  · intro h
    unfold mark_as_read
    rw [if_neg]
    simp [h]
  · intro h
    unfold mark_as_read
    rw [if_pos h]
    exact ⟨rfl, rfl⟩
  · intro h
    unfold mark_all_read_row
    rw [if_neg]
    rcases h with h | h <;> simp [h]

/-- C8 witness: the amended theorem at a concrete read notification. -/
theorem c8_status_ops_witness :
    (mark_as_sent sampleReadNotification 9).status = NStatus.sent ∧
    mark_as_read sampleReadNotification 9 = sampleReadNotification := by
  exact ⟨(c8_status_ops sampleReadNotification "u" 9).1,
    (c8_status_ops sampleReadNotification "u" 9).2.2.1 rfl⟩

/-- C9: the mark-all-notifications-read operation is the row map of
`mark_all_read_row`, and that per-row update leaves any row whose
status is `failed` or `read` completely unchanged (status and
`read_at` included); likewise any row of a different recipient. -/
theorem c9_mark_all_frame (ns : List Notification) (uid : String) (now : Nat) :
    mark_all_notifications_read ns uid now = ns.map (mark_all_read_row uid now) ∧
    (∀ n : Notification, n.status = NStatus.failed ∨ n.status = NStatus.read →
      mark_all_read_row uid now n = n) ∧
    (∀ n : Notification, n.recipient_id ≠ uid → mark_all_read_row uid now n = n) := by
  refine ⟨rfl, ?_, ?_⟩
  · intro n h
    unfold mark_all_read_row
    rw [if_neg]
    rcases h with h | h <;> simp [h]
  · intro n h
    unfold mark_all_read_row
    rw [if_neg]
    simp [h]

/-- C9 witness: a failed notification of the recipient is untouched by
the bulk update. -/
theorem c9_mark_all_frame_witness :
    mark_all_read_row "u" 9
        { recipient_id := "u", status := NStatus.failed,
          sent_at := none, delivered_at := none, read_at := none } =
      { recipient_id := "u", status := NStatus.failed,
        sent_at := none, delivered_at := none, read_at := none } := by
  exact (c9_mark_all_frame [] "u" 9).2.1 _ (Or.inl rfl)

/-! ## C2: preference and channel resolution -/

/-- C2 counterexample: the claim states that a preference row with
`is_enabled = False` makes the resolver return the empty channel set.
But the code filters preferences with `is_enabled=True`, so the
disabled row leaves the queryset empty and the resolver falls back to
the type's default channels: with defaults {web, email} active, it
returns [web, email], not []. -/
theorem c2_disabled_pref_counterexample :
    send_notification_channels [sampleDisabledPref] "u7" sampleNewMessageType =
      [sampleWeb, sampleEmail] ∧
    ([sampleWeb, sampleEmail] : List NotificationChannel) ≠ [] := by
  refine ⟨rfl, ?_⟩
  intro h
  cases h

/-- C2 (amended): the resolver queries only preference rows with
`is_enabled = True`.  If no enabled row matches (recipient, type) —
whether no row exists at all or the only row is disabled — it returns
the type's default channels filtered to active ones (so a disabled
preference does not suppress delivery; the fallback defaults are
used).  If an enabled row exists (unique by the table's
`unique_together` constraint, expressed here by the uniqueness and
no-duplicate hypotheses), it returns that row's configured channels
filtered to active ones. -/
theorem c2_channel_resolution (prefs : List UserNotificationPreference)
    (recipient : String) (ntype : NotificationType) :
    ((∀ p ∈ prefs, p.user_id = recipient → p.notification_type_id = ntype.id →
        p.is_enabled = false) →
      send_notification_channels prefs recipient ntype =
        ntype.default_channels.filter fun c => c.is_active) ∧
    (∀ p ∈ prefs, p.user_id = recipient → p.notification_type_id = ntype.id →
      p.is_enabled = true →
      (∀ q ∈ prefs, q.user_id = recipient → q.notification_type_id = ntype.id → q = p) →
      prefs.Nodup →
      send_notification_channels prefs recipient ntype =
        p.channels.filter fun c => c.is_active) := by
  constructor
  · intro hall
    unfold send_notification_channels
    have hnil : prefs.filter (fun p =>
        p.user_id == recipient && p.notification_type_id == ntype.id && p.is_enabled) = [] := by
      rw [List.filter_eq_nil_iff]
      intro p hp
      simp only [Bool.and_eq_true, beq_iff_eq, not_and]
      intro ⟨hu, ht⟩
      rw [hall p hp hu ht]
      simp
    simp [hnil]
  · intro p hp hu ht hen huniq hnd
    unfold send_notification_channels
    have hone : prefs.filter (fun q =>
        q.user_id == recipient && q.notification_type_id == ntype.id && q.is_enabled) = [p] := by
      have hext : ∀ q ∈ prefs.filter (fun q =>
          q.user_id == recipient && q.notification_type_id == ntype.id && q.is_enabled), q = p := by
        intro q hq
        rw [List.mem_filter] at hq
        obtain ⟨hqmem, hqp⟩ := hq
        simp only [Bool.and_eq_true, beq_iff_eq] at hqp
        exact huniq q hqmem hqp.1.1 hqp.1.2
      have hpmem : p ∈ prefs.filter (fun q =>
          q.user_id == recipient && q.notification_type_id == ntype.id && q.is_enabled) := by
        rw [List.mem_filter]
        exact ⟨hp, by simp [hu, ht, hen]⟩
      have hrep := List.eq_replicate_of_mem hext
      have hcount_le : (prefs.filter (fun q =>
          q.user_id == recipient && q.notification_type_id == ntype.id && q.is_enabled)).count p ≤
          prefs.count p :=
        (List.filter_sublist prefs).count_le p
      have hcount_prefs : prefs.count p ≤ 1 :=
        List.nodup_iff_count_le_one.mp hnd p
      have hcount_filter : (prefs.filter (fun q =>
          q.user_id == recipient && q.notification_type_id == ntype.id && q.is_enabled)).count p =
          (prefs.filter (fun q =>
          q.user_id == recipient && q.notification_type_id == ntype.id && q.is_enabled)).length := by
        rw [hrep]
        simp [List.count_replicate]
      have hlen_pos : 0 < (prefs.filter (fun q =>
          q.user_id == recipient && q.notification_type_id == ntype.id && q.is_enabled)).length :=
        List.length_pos.mpr (List.ne_nil_of_mem hpmem)
      have hlen_one : (prefs.filter (fun q =>
          q.user_id == recipient && q.notification_type_id == ntype.id && q.is_enabled)).length = 1 := by
        omega
      obtain ⟨a, ha⟩ := List.length_eq_one.mp hlen_one
      rw [ha] at hext hpmem ⊢
      have : a = p := hext a (by simp)
      rw [this]
    simp [hone]

/-- C2 witness: the amended theorem applied at a concrete state — a
disabled preference row yields the default channels, and an enabled
row configuring only email yields exactly the email channel. -/
theorem c2_channel_resolution_witness :
    send_notification_channels [sampleDisabledPref] "u7" sampleNewMessageType =
      [sampleWeb, sampleEmail] ∧
    send_notification_channels
        [{ user_id := "u7", notification_type_id := 7,
           channels := [sampleEmail], is_enabled := true }] "u7" sampleNewMessageType =
      [sampleEmail] := by
  constructor
  · have h := (c2_channel_resolution [sampleDisabledPref] "u7" sampleNewMessageType).1
      (by decide)
    rw [h]
    rfl
  · have h := (c2_channel_resolution
        [{ user_id := "u7", notification_type_id := 7,
           channels := [sampleEmail], is_enabled := true }] "u7" sampleNewMessageType).2
      { user_id := "u7", notification_type_id := 7,
        channels := [sampleEmail], is_enabled := true }
      (by decide) rfl rfl rfl (by decide) (by decide)
    rw [h]
    rfl

/-! ## C10: typing relay -/

/-- C10: typing signaling performs no membership check — even when the
sending user is not a member of the conversation (the hypothesis that
`verify_conversation_access` is false for them), the frame is relayed
to the conversation group, and it is delivered to exactly those group
subscribers whose user id differs from the sender (never echoed to the
sender's own connections). -/
theorem c10_typing_relay (db : DB) (subs : List Subscriber) (cid : Nat)
    (uid : String) (t : Bool)
    (_hnm : verify_conversation_access db cid uid = false) :
    relay_typing subs (some cid) uid t =
      subs.filter fun s => !(s.user_id == uid) := by
  unfold relay_typing handle_typing
  apply List.filter_congr
  intro s _
  unfold typing_indicator
  by_cases h : uid = s.user_id
  · rw [if_neg (by simp [h])]
    simp [h]
  · rw [if_pos (by simp [h])]
    simp [Ne.symm h]

/-- C10 witness: in `sampleDB`, "C" is not a member of conversation 1,
yet their typing frame is delivered to the two subscribers that are
not "C" and not echoed to "C"'s own connection. -/
theorem c10_typing_relay_witness :
    verify_conversation_access sampleDB 1 "C" = false ∧
    relay_typing
        [{ channel_name := 1, user_id := "A" }, { channel_name := 2, user_id := "C" },
         { channel_name := 3, user_id := "B" }] (some 1) "C" true =
      [{ channel_name := 1, user_id := "A" }, { channel_name := 3, user_id := "B" }] := by
  refine ⟨by decide, ?_⟩
  rw [c10_typing_relay sampleDB
    [{ channel_name := 1, user_id := "A" }, { channel_name := 2, user_id := "C" },
     { channel_name := 3, user_id := "B" }] 1 "C" true (by decide)]
  rfl

/-! ## Read-status helper lemmas (get_or_create semantics) -/

/-- A `get_or_create` on a pair that already has a row is the identity. -/
theorem gocrs_of_has (db : DB) (i : Nat) (u : String)
    (h : has_read_status db i u = true) :
    get_or_create_read_status db i u = db := by
  unfold get_or_create_read_status
  rw [if_pos h]

/-- After `get_or_create`, the pair always has a row. -/
theorem has_read_status_gocrs_self (db : DB) (i : Nat) (u : String) :
    has_read_status (get_or_create_read_status db i u) i u = true := by
  unfold get_or_create_read_status
  split
  · assumption
  · unfold has_read_status
    simp [List.any_append]

/-- A `get_or_create` never removes an existing row. -/
theorem has_read_status_gocrs_mono (db : DB) (j : Nat) (v : String)
    (i : Nat) (u : String) (h : has_read_status db i u = true) :
    has_read_status (get_or_create_read_status db j v) i u = true := by
  unfold get_or_create_read_status
  split
  · exact h
  · unfold has_read_status at h ⊢
    simp [List.any_append, h]

/-- A `get_or_create` leaves the member table unchanged. -/
theorem gocrs_members (db : DB) (i : Nat) (u : String) :
    (get_or_create_read_status db i u).members = db.members := by
  unfold get_or_create_read_status
  split <;> rfl

/-! ## C7: idempotence of mark_message_read -/

/-- C7: the mark-message-read primitive (`get_or_create` of a
MessageReadStatus row) is idempotent — a second call on the same
(message, user) pair returns the state unchanged and raises no error —
and starting from a state respecting the table's unique constraint (at
most one row per pair), one call leaves exactly one row for the pair,
so any number of calls leaves exactly one row. -/
theorem c7_mark_read_idempotent (db : DB) (mid : Nat) (uid : String)
    (hone : (db.read_statuses.filter fun r =>
        r.message_id == mid && r.user_id == uid).length ≤ 1) :
    get_or_create_read_status (get_or_create_read_status db mid uid) mid uid =
      get_or_create_read_status db mid uid ∧
    ((get_or_create_read_status db mid uid).read_statuses.filter fun r =>
        r.message_id == mid && r.user_id == uid).length = 1 := by
  constructor
  · exact gocrs_of_has _ _ _ (has_read_status_gocrs_self db mid uid)
  · by_cases h : has_read_status db mid uid = true
    · rw [gocrs_of_has db mid uid h]
      unfold has_read_status at h
      rw [List.any_eq_true] at h
      obtain ⟨r, hr, hpr⟩ := h
      have hmemf : r ∈ db.read_statuses.filter fun r =>
          r.message_id == mid && r.user_id == uid :=
        List.mem_filter.mpr ⟨hr, hpr⟩
      have : 0 < (db.read_statuses.filter fun r =>
          r.message_id == mid && r.user_id == uid).length :=
        List.length_pos.mpr (List.ne_nil_of_mem hmemf)
      omega
    · unfold get_or_create_read_status
      rw [if_neg h]
      have hnil : (db.read_statuses.filter fun r =>
          r.message_id == mid && r.user_id == uid) = [] := by
        rw [List.filter_eq_nil_iff]
        intro r hr
        unfold has_read_status at h
        rw [Bool.not_eq_true, List.any_eq_false] at h
        exact h r hr
      simp [List.filter_append, hnil]

/-- C7 witness: marking message 12 read by "B" (already read in the
fixture) a second time changes nothing and leaves exactly one row. -/
theorem c7_mark_read_idempotent_witness :
    get_or_create_read_status (get_or_create_read_status sampleDBMsgs 12 "B") 12 "B" =
      get_or_create_read_status sampleDBMsgs 12 "B" ∧
    ((get_or_create_read_status sampleDBMsgs 12 "B").read_statuses.filter fun r =>
        r.message_id == 12 && r.user_id == "B").length = 1 :=
  c7_mark_read_idempotent sampleDBMsgs 12 "B" (by decide)

/-! ## C3: non-member sends are rejected before any write -/

/-- C3: a user who is neither in the conversation's `participants`
list (the REST check) nor holder of a ConversationMember row (the
WebSocket check) has every send rejected with the access-denied error,
and the state — in particular the Message table — is returned
unchanged, so no partial record exists.  The content hypotheses rule
out the earlier validation rejection, which also writes nothing. -/
theorem c3_nonmember_send_rejected (db : DB) (cid : Nat) (uid content : String)
    (mid now : Nat)
    (hcontent : py_strip content ≠ "")
    (hlen : content.length ≤ 5000)
    (hpart : ∀ c ∈ db.conversations, c.id = cid → uid ∉ c.participants)
    (hmem : ∀ m ∈ db.members, m.conversation_id = cid → m.user_id ≠ uid) :
    send_message_rest db cid uid content mid now =
      ⟨db, some ApiErr.accessDenied, none⟩ ∧
    handle_send_message db cid uid content mid now =
      ⟨db, some ApiErr.accessDenied, none⟩ := by
  constructor
  · unfold send_message_rest
    rw [if_neg hcontent, if_neg (by omega)]
    have hfind : db.conversations.find? (fun c =>
        c.id == cid && c.participants.contains uid) = none := by
      rw [List.find?_eq_none]
      intro c hc
      simp only [Bool.and_eq_true, beq_iff_eq, not_and]
      intro hid
      have hnot := hpart c hc hid
      simpa using hnot
    rw [hfind]
  · unfold handle_send_message
    rw [if_neg hcontent]
    have hv : verify_conversation_access db cid uid = false := by
      unfold verify_conversation_access
      rw [List.any_eq_false]
      intro c hc hp
      simp only [Bool.and_eq_true, beq_iff_eq, List.any_eq_true] at hp
      obtain ⟨⟨hid, -⟩, m, hm, hcid2, huid2⟩ := hp
      exact hmem m hm (hcid2.trans hid) huid2
    simp [hv]

/-- C3 witness: user "C" (no participant entry, no member row in
`sampleDB`) is rejected on both paths with the state unchanged. -/
theorem c3_nonmember_send_rejected_witness :
    send_message_rest sampleDB 1 "C" "hi" 10 5 =
      ⟨sampleDB, some ApiErr.accessDenied, none⟩ ∧
    handle_send_message sampleDB 1 "C" "hi" 10 5 =
      ⟨sampleDB, some ApiErr.accessDenied, none⟩ :=
  c3_nonmember_send_rejected sampleDB 1 "C" "hi" 10 5
    (by decide) (by decide) (by decide) (by decide)

/-! ## C4: sender's MessageReadStatus at send time -/

/-- C4 counterexample: the claim states every successful send creates
a MessageReadStatus for (message, sender).  Evaluating the REST path at
the fixture: "A"'s send succeeds yet the read-status table stays
empty — only the WebSocket path creates the sender's row. -/
theorem c4_rest_no_sender_read_counterexample :
    (send_message_rest sampleDB 1 "A" "hi" 10 5).err = none ∧
    (send_message_rest sampleDB 1 "A" "hi" 10 5).msg.isSome = true ∧
    (send_message_rest sampleDB 1 "A" "hi" 10 5).db.read_statuses = [] := by
  exact ⟨rfl, rfl, rfl⟩

/-- Shape of a successful consumer `create_message`: the returned
message carries the requested id and the read-status table gains
exactly the sender's row. -/
theorem create_message_read_statuses (db : DB) (cid : Nat) (uid content : String)
    (mid now : Nat) (db' : DB) (m : Message)
    (h : create_message db cid uid content mid now = some (db', m)) :
    m.id = mid ∧
    db'.read_statuses = db.read_statuses ++ [{ message_id := mid, user_id := uid }] := by
  unfold create_message at h
  cases hf : db.conversations.find? (fun c => c.id == cid) with
  | none =>
    rw [hf] at h
    cases h
  | some conv =>
    rw [hf] at h
    injection h with h1
    injection h1 with hdb hm
    constructor
    · rw [← hm]
    · rw [← hdb]
      rfl

/-- C4 (amended): the WebSocket send path synchronously creates the
sender's MessageReadStatus for the new message, but the REST send path
creates no read-status row at all — its resulting state keeps the
read-status table unchanged. -/
theorem c4_sender_read_status (db : DB) (cid : Nat) (uid content : String)
    (mid now : Nat) (db1 db2 : DB) (m1 m2 : Message)
    (hws : handle_send_message db cid uid content mid now = ⟨db1, none, some m1⟩)
    (hrest : send_message_rest db cid uid content mid now = ⟨db2, none, some m2⟩) :
    has_read_status db1 m1.id uid = true ∧
    db2.read_statuses = db.read_statuses := by
  constructor
  · unfold handle_send_message at hws
    by_cases hc : py_strip content = ""
    · rw [if_pos hc] at hws
      simp at hws
    · rw [if_neg hc] at hws
      by_cases hvv : verify_conversation_access db cid uid = true
      · rw [if_pos hvv] at hws
        cases hcm : create_message db cid uid (py_strip content) mid now with
        | none =>
          rw [hcm] at hws
          simp at hws
        | some r =>
          obtain ⟨d, mm⟩ := r
          rw [hcm] at hws
          injection hws with hdb _ hmsg
          injection hmsg with hm
          obtain ⟨hid, hrs⟩ := create_message_read_statuses db cid uid
            (py_strip content) mid now d mm hcm
          unfold has_read_status
          rw [← hdb, hrs, ← hm, hid]
          simp [List.any_append]
      · rw [if_neg hvv] at hws
        simp at hws
  · unfold send_message_rest at hrest
    by_cases h1 : py_strip content = ""
    · rw [if_pos h1] at hrest
      simp at hrest
    · rw [if_neg h1] at hrest
      by_cases h2 : content.length > 5000
      · rw [if_pos h2] at hrest
        simp at hrest
      · rw [if_neg h2] at hrest
        cases hf : db.conversations.find? (fun c =>
            c.id == cid && c.participants.contains uid) with
        | none =>
          rw [hf] at hrest
          simp at hrest
        | some conv =>
          rw [hf] at hrest
          injection hrest with hdb _ _
          rw [← hdb]
          rfl

/-- C4 witness: at the fixture, "A"'s WebSocket send creates the
sender read-status row while the REST send leaves the table empty. -/
theorem c4_sender_read_status_witness :
    has_read_status (handle_send_message sampleDB 1 "A" "hi" 10 5).db 10 "A" = true ∧
    (send_message_rest sampleDB 1 "A" "hi" 10 5).db.read_statuses =
      sampleDB.read_statuses := by
  have h := c4_sender_read_status sampleDB 1 "A" "hi" 10 5
    (handle_send_message sampleDB 1 "A" "hi" 10 5).db
    (send_message_rest sampleDB 1 "A" "hi" 10 5).db
    { id := 10, conversation_id := 1, sender_id := "A", content := "hi",
      is_edited := false, is_deleted := false, created_at := 5, updated_at := 5 }
    { id := 10, conversation_id := 1, sender_id := "A", content := "hi",
      is_edited := false, is_deleted := false, created_at := 5, updated_at := 5 }
    (by decide) (by decide)
  exact ⟨h.1, h.2⟩

/-! ## C6: edit/delete by a non-sender -/

/-- C6 counterexample: the claim states a non-sender's edit fails with
AccessDenied.  At the fixture, "B" editing message 10 (sent by "A") is
rejected with `notFound` — the sender-filtered lookup produces a 404
'Message not found', not the 403 access-denied error — though the
state is indeed unchanged. -/
theorem c6_nonsender_edit_counterexample :
    edit_message sampleDBMsgs 10 "B" "hack" 50 =
      (sampleDBMsgs, some ApiErr.notFound) ∧
    some ApiErr.notFound ≠ some ApiErr.accessDenied := by
  refine ⟨rfl, ?_⟩
  intro h
  cases h

/-- C6 (amended): for any message in the table and any user other than
its sender (with the message id unique, per the primary key), both
`edit_message` and `delete_message` fail — with the `notFound` (404
'Message not found') error rather than access-denied, because the
lookup filters by sender — and return the state unchanged, leaving
every field of every message as it was. -/
theorem c6_nonsender_edit_delete (db : DB) (msg : Message) (uid content : String)
    (now : Nat)
    (_hmem : msg ∈ db.messages)
    (hpk : ∀ m ∈ db.messages, m.id = msg.id → m = msg)
    (hside : uid ≠ msg.sender_id) :
    edit_message db msg.id uid content now = (db, some ApiErr.notFound) ∧
    delete_message db msg.id uid now = (db, some ApiErr.notFound) := by
  have hfind : db.messages.find? (fun m =>
      m.id == msg.id && m.sender_id == uid && !m.is_deleted) = none := by
    rw [List.find?_eq_none]
    intro m hm
    intro hpred
    simp only [Bool.and_eq_true, beq_iff_eq] at hpred
    obtain ⟨⟨hid, hsender⟩, -⟩ := hpred
    rw [hpk m hm hid] at hsender
    exact hside hsender.symm
  constructor
  · unfold edit_message
    rw [hfind]
  · unfold delete_message
    rw [hfind]

/-- C6 witness: "B" can neither edit nor delete "A"'s message 10; both
calls 404 and leave the state untouched. -/
theorem c6_nonsender_edit_delete_witness :
    edit_message sampleDBMsgs 10 "B" "hack" 50 =
      (sampleDBMsgs, some ApiErr.notFound) ∧
    delete_message sampleDBMsgs 10 "B" 50 =
      (sampleDBMsgs, some ApiErr.notFound) := by
  have h := c6_nonsender_edit_delete sampleDBMsgs
    { id := 10, conversation_id := 1, sender_id := "A", content := "hi",
      is_edited := false, is_deleted := false, created_at := 5, updated_at := 5 }
    "B" "hack" 50 (by decide) (by decide) (by decide)
  exact h

/-! ## C5: mark_conversation_read postcondition -/

/-- The (message_id, user_id) key projection of the read-status table;
the table's unique constraint says these keys are pairwise distinct. -/
def rs_keys (db : DB) : List (Nat × String) :=
  db.read_statuses.map fun r => (r.message_id, r.user_id)

/-- A `get_or_create` preserves distinctness of the (message, user)
keys: it appends a row only when its key is absent. -/
theorem gocrs_nodup (db : DB) (i : Nat) (u : String)
    (h : (rs_keys db).Nodup) :
    (rs_keys (get_or_create_read_status db i u)).Nodup := by
  unfold get_or_create_read_status
  split
  · exact h
  next hfalse =>
    unfold rs_keys at h ⊢
    simp only [List.map_append, List.map_cons, List.map_nil]
    rw [List.nodup_append]
    refine ⟨h, List.nodup_singleton _, ?_⟩
    intro a ha hb
    simp only [List.mem_singleton] at hb
    subst hb
    rw [List.mem_map] at ha
    obtain ⟨r, hr, hkey⟩ := ha
    have : has_read_status db i u = true := by
      unfold has_read_status
      rw [List.any_eq_true]
      refine ⟨r, hr, ?_⟩
      have h1 : r.message_id = i := congrArg Prod.fst hkey
      have h2 : r.user_id = u := congrArg Prod.snd hkey
      simp [h1, h2]
    exact hfalse this

/-- Folding `get_or_create` over a message list keeps every row that
was already present. -/
theorem fold_read_mono (l : List Message) (db : DB) (u : String)
    (i : Nat) (w : String) (h : has_read_status db i w = true) :
    has_read_status
      (l.foldl (fun d m => get_or_create_read_status d m.id u) db) i w = true := by
  induction l generalizing db with
  | nil => exact h
  | cons x xs ih =>
    rw [List.foldl_cons]
    exact ih _ (has_read_status_gocrs_mono db x.id u i w h)

/-- Folding `get_or_create` over a message list creates a row for every
message in the list. -/
theorem fold_read_hits (l : List Message) (db : DB) (u : String)
    (m : Message) (hm : m ∈ l) :
    has_read_status
      (l.foldl (fun d m' => get_or_create_read_status d m'.id u) db) m.id u = true := by
  induction l generalizing db with
  | nil => cases hm
  | cons x xs ih =>
    rw [List.foldl_cons]
    rcases List.mem_cons.mp hm with h | h
    · subst h
      exact fold_read_mono xs _ u m.id u (has_read_status_gocrs_self db m.id u)
    · exact ih (get_or_create_read_status db x.id u) h

/-- Folding `get_or_create` leaves the member table unchanged. -/
theorem fold_read_members (l : List Message) (db : DB) (u : String) :
    (l.foldl (fun d m => get_or_create_read_status d m.id u) db).members = db.members := by
  induction l generalizing db with
  | nil => rfl
  | cons x xs ih =>
    rw [List.foldl_cons, ih, gocrs_members]

/-- Folding `get_or_create` preserves key distinctness. -/
theorem fold_read_nodup (l : List Message) (db : DB) (u : String)
    (h : (rs_keys db).Nodup) :
    (rs_keys (l.foldl (fun d m => get_or_create_read_status d m.id u) db)).Nodup := by
  induction l generalizing db with
  | nil => exact h
  | cons x xs ih =>
    rw [List.foldl_cons]
    exact ih _ (gocrs_nodup db x.id u h)

/-- The member update of `mark_conversation_read` zeroes `unread_count`
and stamps `last_seen_at` on every row matching (conversation, user),
provided at most one row matches (the table's unique constraint). -/
theorem set_member_read_spec (ms : List ConversationMember) (cid : Nat)
    (uid : String) (now : Nat)
    (hone : (ms.filter fun m => m.conversation_id == cid && m.user_id == uid).length ≤ 1) :
    ∀ mem ∈ set_member_read ms cid uid now,
      mem.conversation_id = cid → mem.user_id = uid →
        mem.unread_count = 0 ∧ mem.last_seen_at = some now := by
  induction ms with
  | nil =>
    intro mem h
    cases h
  | cons m rest ih =>
    intro mem hmem hc hu
    by_cases hkey : (m.conversation_id == cid && m.user_id == uid) = true
    · unfold set_member_read at hmem
      rw [if_pos hkey] at hmem
      rcases List.mem_cons.mp hmem with h | h
      · subst h
        exact ⟨rfl, rfl⟩
      · exfalso
        have hmf : mem ∈ rest.filter fun m' =>
            m'.conversation_id == cid && m'.user_id == uid :=
          List.mem_filter.mpr ⟨h, by simp [hc, hu]⟩
        have hpos : 0 < (rest.filter fun m' =>
            m'.conversation_id == cid && m'.user_id == uid).length :=
          List.length_pos.mpr (List.ne_nil_of_mem hmf)
        rw [List.filter_cons, if_pos hkey] at hone
        simp only [List.length_cons] at hone
        omega
    · unfold set_member_read at hmem
      rw [if_neg hkey] at hmem
      rcases List.mem_cons.mp hmem with h | h
      · subst h
        exact absurd (by simp [hc, hu]) hkey
      · refine ih ?_ mem h hc hu
        rw [List.filter_cons, if_neg hkey] at hone
        exact hone

/-- C5: when the caller is a participant of the conversation (the 404
branch is not taken), the member table respects the unique constraint,
and the read-status keys are distinct, `mark_conversation_read`
returns no error and its resulting state has: a MessageReadStatus row
for the user for every non-deleted message of the conversation not
sent by them; the user's member row for the conversation at
`unread_count = 0` with `last_seen_at` stamped; and still-distinct
read-status keys (pre-existing rows were not duplicated; `get_or_create`
and `bulk_create(ignore_conflicts=True)` raise no conflict error). -/
theorem c5_mark_conversation_read (db : DB) (cid : Nat) (uid : String) (now : Nat)
    (haccess : (db.conversations.find? fun c =>
        c.id == cid && c.participants.contains uid).isSome = true)
    (hone : (db.members.filter fun m =>
        m.conversation_id == cid && m.user_id == uid).length ≤ 1)
    (hnd : (rs_keys db).Nodup) :
    (mark_conversation_read db cid uid now).2 = none ∧
    (∀ m ∈ db.messages, m.conversation_id = cid → m.is_deleted = false →
      m.sender_id ≠ uid →
      has_read_status (mark_conversation_read db cid uid now).1 m.id uid = true) ∧
    (∀ mem ∈ (mark_conversation_read db cid uid now).1.members,
      mem.conversation_id = cid → mem.user_id = uid →
        mem.unread_count = 0 ∧ mem.last_seen_at = some now) ∧
    (rs_keys (mark_conversation_read db cid uid now).1).Nodup := by
  obtain ⟨conv, hconv⟩ := Option.isSome_iff_exists.mp haccess
  have hpair : mark_conversation_read db cid uid now =
      (mark_conversation_read_body db cid uid now, none) := by
    unfold mark_conversation_read
    rw [hconv]
  rw [hpair]
  have hbody_members : (mark_conversation_read_body db cid uid now).members =
      set_member_read db.members cid uid now := by
    show set_member_read
        ((db.messages.filter fun m =>
            m.conversation_id == cid && !m.is_deleted &&
              !(m.sender_id == uid || has_read_status db m.id uid)).foldl
          (fun d m => get_or_create_read_status d m.id uid) db).members cid uid now =
      set_member_read db.members cid uid now
    rw [fold_read_members]
  refine ⟨rfl, ?_, ?_, ?_⟩
  · intro m hm hc hdel hsend
    show has_read_status
        ((db.messages.filter fun m' =>
            m'.conversation_id == cid && !m'.is_deleted &&
              !(m'.sender_id == uid || has_read_status db m'.id uid)).foldl
          (fun d m' => get_or_create_read_status d m'.id uid) db) m.id uid = true
    by_cases hhas : has_read_status db m.id uid = true
    · exact fold_read_mono _ db uid m.id uid hhas
    · have hfalse : has_read_status db m.id uid = false := by
        cases hx : has_read_status db m.id uid with
        | true => exact absurd hx hhas
        | false => rfl
      have hmf : m ∈ db.messages.filter fun m' =>
          m'.conversation_id == cid && !m'.is_deleted &&
            !(m'.sender_id == uid || has_read_status db m'.id uid) := by
        rw [List.mem_filter]
        refine ⟨hm, ?_⟩
        simp [hc, hdel, hsend, hfalse]
      exact fold_read_hits _ db uid m hmf
  · intro mem hmem hc hu
    have hmem2 : mem ∈ set_member_read db.members cid uid now := by
      rw [← hbody_members]
      exact hmem
    exact set_member_read_spec db.members cid uid now hone mem hmem2 hc hu
  · show (rs_keys
        ((db.messages.filter fun m =>
            m.conversation_id == cid && !m.is_deleted &&
              !(m.sender_id == uid || has_read_status db m.id uid)).foldl
          (fun d m => get_or_create_read_status d m.id uid) db)).Nodup
    exact fold_read_nodup _ db uid hnd

/-- C5 witness: "B" marks conversation 1 read in the fixture; message
10 (unread, from "A") gains a read-status row, the deleted message 11
and "B"'s own message 12 need none (12 already has one), "B"'s member
row drops to 0 unread with `last_seen_at` stamped, and the key set
stays duplicate-free. -/
theorem c5_mark_conversation_read_witness :
    (mark_conversation_read sampleDBMsgs 1 "B" 99).2 = none ∧
    has_read_status (mark_conversation_read sampleDBMsgs 1 "B" 99).1 10 "B" = true ∧
    (∀ mem ∈ (mark_conversation_read sampleDBMsgs 1 "B" 99).1.members,
      mem.conversation_id = 1 → mem.user_id = "B" →
        mem.unread_count = 0 ∧ mem.last_seen_at = some 99) ∧
    (rs_keys (mark_conversation_read sampleDBMsgs 1 "B" 99).1).Nodup := by
  have h := c5_mark_conversation_read sampleDBMsgs 1 "B" 99
    (by decide) (by decide) (by decide)
  refine ⟨h.1, ?_, h.2.2.1, h.2.2.2⟩
  exact h.2.1
    { id := 10, conversation_id := 1, sender_id := "A", content := "hi",
      is_edited := false, is_deleted := false, created_at := 5, updated_at := 5 }
    (by decide) rfl rfl (by decide)
